import Mathlib

/-!
Verification of the quiz-authoring core: question validators, the
placeholder/slot engine for fill-in-blank and dropdown questions, the
question variant data model, and JSON (de)serialization with migration.
Shallow embedding of `shared/validators.py`, `shared/models.py` and
`shared/data_manager.py`.
-/

/-! ### String helpers

Python truthiness/`str.strip` tests of the form `not s or not s.strip()`
are equivalent to "every character of `s` is whitespace" (true for the
empty string).  `stripQ` models `s.replace('Q', '')` (removal of every
occurrence of the single character `Q`), and `digitsVal` models `int()`
applied to a string of decimal digits. -/

def isBlank (s : String) : Bool := s.data.all Char.isWhitespace

def stripQ (s : String) : String := ⟨s.data.filter (fun c => c != 'Q')⟩

def digitsVal (l : List Char) : Nat := l.foldl (fun acc c => acc * 10 + (c.toNat - 48)) 0

/-- Numeric suffix of a slot-id: models `int(bid.replace('Q', ''))` from
`_validate_multi_blank` and `FillInBlankQuestion.get_blank_ids` (the source
only applies it to ids of the form `Q` followed by decimal digits). -/
def qSuffix (s : String) : Nat := digitsVal (stripQ s).data

/-- A single-quote character, used verbatim inside validator messages. -/
def squote : String := String.singleton (Char.ofNat 39)

/-! ### Placeholder extraction

`re.findall(r'_Q(\d+)_', text)` : scan left to right; at each position try
to match `_Q<digits>_`; on a match emit the digit capture and resume
scanning right after the final underscore of the match (matches never
overlap); on a failed attempt advance one character.  `goQ skip cs` carries
the number of characters still to be skipped past the current match. -/

def takeDigits : List Char → List Char × List Char
  | [] => ([], [])
  | c :: cs =>
    if c.isDigit then
      let p := takeDigits cs
      (c :: p.1, p.2)
    else ([], c :: cs)

def tryQ : List Char → Option (List Char × Nat)
  | 'Q' :: rest2 =>
    (match takeDigits rest2 with
     | ([], _) => none
     | (d :: ds, rest3) =>
       match rest3 with
       | '_' :: _ => some (d :: ds, (d :: ds).length + 2)
       | _ => none)
  | _ => none

def goQ : Nat → List Char → List String
  | _, [] => []
  | skip+1, _ :: rest => goQ skip rest
  | 0, c :: rest =>
    if c = '_' then
      match tryQ rest with
      | some (ds, n) => String.mk ds :: goQ n rest
      | none => goQ 0 rest
    else goQ 0 rest

/-- The digit captures of `re.findall(r'_Q(\d+)_', text)`, in text order. -/
def scanQ (text : String) : List String := goQ 0 text.data

/-- `placeholder_ids = [f'Q{num}' for num in placeholders_in_text]`. -/
def placeholderIds (text : String) : List String :=
  (scanQ text).map (fun num => "Q" ++ num)

/-! Dropdown placeholder extraction, pattern `\[DD(\d+)\]`. -/

def tryDD : List Char → Option (List Char × Nat)
  | 'D' :: 'D' :: rest2 =>
    (match takeDigits rest2 with
     | ([], _) => none
     | (d :: ds, rest3) =>
       match rest3 with
       | ']' :: _ => some (d :: ds, (d :: ds).length + 3)
       | _ => none)
  | _ => none

def goDD : Nat → List Char → List String
  | _, [] => []
  | skip+1, _ :: rest => goDD skip rest
  | 0, c :: rest =>
    if c = '[' then
      match tryDD rest with
      | some (ds, n) => String.mk ds :: goDD n rest
      | none => goDD 0 rest
    else goDD 0 rest

/-- The digit captures of `re.findall(r'\[DD(\d+)\]', text)`, in text order. -/
def scanDD (text : String) : List String := goDD 0 text.data

/-- `dd_ids = [f'DD{num}' for num in matches]`. -/
def ddIds (text : String) : List String :=
  (scanDD text).map (fun num => "DD" ++ num)

/-! ### Validators (`shared/validators.py`, class `QuestionValidator`)

Each validator returns `(is_valid, error_message)` and reports the first
violated rule.  `firstBlankIdx l k` models the Python enumeration loops
that return the index of the first empty / whitespace-only string. -/

def firstBlankIdx : List String → Nat → Option Nat
  | [], _ => none
  | s :: rest, i => if isBlank s then some i else firstBlankIdx rest (i+1)

/-- `QuestionValidator.validate_multiple_choice_multiple`.
`MIN_OPTIONS_MC = 2`, `MIN_CORRECT_ANSWERS_MCM = 1`; the Python guard
`not correct_indices or len(correct_indices) < 1` is `length < 1`. -/
def validate_multiple_choice_multiple (question_text : String) (options : List String)
    (correct_indices : List Int) : Bool × String :=
  if isBlank question_text then (false, "Question text is required")
  else if options.length < 2 then (false, "Need at least 2 options")
  else match firstBlankIdx options 0 with
  | some i => (false, "Option " ++ toString i ++ " is empty")
  | none =>
    if correct_indices.length < 1 then (false, "Need at least 1 correct answer")
    else if options.length < correct_indices.length then (false, "Too many correct answers")
    else if correct_indices.dedup.length ≠ correct_indices.length then
      (false, "Duplicate correct answer indices found")
    else match correct_indices.find? (fun idx => decide (idx < 0 ∨ (options.length : Int) ≤ idx)) with
    | some idx => (false, "Correct index " ++ toString idx ++ " is out of range (0-" ++ toString (options.length - 1) ++ ")")
    | none => (true, "")

/-- `QuestionValidator._validate_single_blank` (`MIN_ANSWERS_FILL = 1`);
the `isinstance(answers, list)` guard always holds for a list argument. -/
def validate_single_blank (answers : List String) : Bool × String :=
  if answers.length < 1 then (false, "Need at least 1 acceptable answer")
  else match firstBlankIdx answers 0 with
  | some i => (false, "Answer " ++ toString (i+1) ++ " is empty")
  | none => (true, "")

def msgBlankNoAnswers (pid : String) : String :=
  "Blank " ++ squote ++ "_Q" ++ stripQ pid ++ "_" ++ squote ++ " found in question text but no answers provided"

def msgAnswersNoBlank (aid : String) : String :=
  "Answers provided for " ++ squote ++ "_Q" ++ stripQ aid ++ "_" ++ squote ++ " but blank not found in question text"

def joinQ (l : List Nat) : String :=
  "Q" ++ String.intercalate ", Q" (l.map toString)

def msgConsecutive (expected found : List Nat) : String :=
  "Blank numbering must be consecutive starting from 1. Expected: " ++ joinQ expected ++ ", Found: " ++ joinQ found

def msgNoBlanksFound : String :=
  "No blanks found in question text. Use format: _Q1_, _Q2_, etc."

/-- Ascending sort of natural numbers, modelling Python `sorted`. -/
def sortNats (l : List Nat) : List Nat := List.insertionSort (fun a b => a ≤ b) l

/-- Per-blank answer validation loop of `_validate_multi_blank`
(`for blank_id, acceptable_answers in answers.items(): ...`); the
`isinstance(acceptable_answers, list)` guard always holds here. -/
def checkBlankAnswers : List (String × List String) → Bool × String
  | [] => (true, "")
  | (bid, ans) :: rest =>
    if ans.length < 1 then (false, "_Q" ++ stripQ bid ++ "_ needs at least 1 acceptable answer")
    else match firstBlankIdx ans 0 with
    | some i => (false, "_Q" ++ stripQ bid ++ "_ answer " ++ toString (i+1) ++ " is empty")
    | none => checkBlankAnswers rest

/-- `QuestionValidator._validate_multi_blank` (the live definition at the
class level; `MAX_BLANKS_FILL = 10`).  A Python dict is modelled as an
association list in insertion order with distinct keys; the
`isinstance(answers, dict)` guard always holds for it. -/
def validate_multi_blank (question_text : String) (answers : List (String × List String)) : Bool × String :=
  if answers.length = 0 then (false, "At least one blank is required")
  else if 10 < answers.length then
    (false, "Maximum 10 blanks allowed, found " ++ toString answers.length)
  else
    let pids := placeholderIds question_text
    if pids.length = 0 then (false, msgNoBlanksFound)
    else
      let answerIds := answers.map Prod.fst
      match pids.find? (fun pid => !(answerIds.contains pid)) with
      | some pid => (false, msgBlankNoAnswers pid)
      | none =>
        match answerIds.find? (fun aid => !(pids.contains aid)) with
        | some aid => (false, msgAnswersNoBlank aid)
        | none =>
          let blankNumbers := sortNats (answerIds.map qSuffix)
          let expected := List.range' 1 answers.length
          if blankNumbers ≠ expected then (false, msgConsecutive expected blankNumbers)
          else checkBlankAnswers answers

/-- The `answers` argument of `validate_fill_in_blank`: either the legacy
flat list or the multi-blank dict (as an insertion-ordered assoc list). -/
inductive FillAnswers where
  | single (l : List String)
  | multi (m : List (String × List String))
deriving DecidableEq

/-- `QuestionValidator.validate_fill_in_blank`: the format is decided by
`isinstance(answers, dict)`. -/
def validate_fill_in_blank (question_text : String) (answers : FillAnswers) : Bool × String :=
  if isBlank question_text then (false, "Question text is required")
  else match answers with
  | .multi m => validate_multi_blank question_text m
  | .single l => validate_single_blank l

/-- A raw reordering item dict: `text` and `order` keys, each possibly
absent (`item.get('text')` / `'order' not in item`). -/
structure ItemD where
  text : Option String
  order : Option Int
deriving DecidableEq

/-- Truthiness failure of `item.get('text')` followed by `.strip()`:
the key is absent, or the value is empty/whitespace-only. -/
def optBlank : Option String → Bool
  | none => true
  | some s => isBlank s

/-- Item loop of `validate_reordering`, reporting 1-based item indices. -/
def checkItems : List ItemD → Nat → Bool × String
  | [], _ => (true, "")
  | it :: rest, i =>
    if optBlank it.text then (false, "Item " ++ toString (i+1) ++ " text is empty")
    else if it.order = none then (false, "Item " ++ toString (i+1) ++ " missing order")
    else checkItems rest (i+1)

/-- `QuestionValidator.validate_reordering` (`MIN_ITEMS_REORDERING = 2`). -/
def validate_reordering (question_text : String) (items : List ItemD) : Bool × String :=
  if isBlank question_text then (false, "Question text is required")
  else if items.length < 2 then (false, "Need at least 2 items")
  else checkItems items 0

/-! ### Dropdown validation

`DropdownForm.validate` (admin_tool/dialogs/question_forms/dropdown_form.py)
calls `QuestionValidator.validate_dropdown(question, dropdowns)`, but that
method's definition (like the `DropdownQuestion` model it imports) is not
present in the source tree; only its caller and its constants
(`MIN_DROPDOWNS = 1`, `MAX_DROPDOWNS = 5`, `MIN_OPTIONS_PER_DROPDOWN = 3`,
`MAX_OPTIONS_PER_DROPDOWN = 4`, pattern `\[DD(\d+)\]`) are. -/

/-- One dropdown slot payload: `{options: [...], correct: int}`. -/
structure DDSpec where
  options : List String
  correct : Int
deriving DecidableEq

def msgNoDropdownsFound : String :=
  "No dropdowns found in question text. Use format: [DD1], [DD2], etc."

def msgDDNoOptions (pid : String) : String :=
  "Dropdown [DD" ++ pid.drop 2 ++ "] found in question text but no options provided"

def msgDDNoPlaceholder (aid : String) : String :=
  "Options provided for [DD" ++ aid.drop 2 ++ "] but placeholder not found in question text"

/-- Per-slot content check: 3-4 non-empty options and an in-range correct index. -/
def checkDropdowns : List (String × DDSpec) → Bool × String
  | [] => (true, "")
  | (did, dd) :: rest =>
    if dd.options.length < 3 ∨ 4 < dd.options.length then
      (false, "[DD" ++ did.drop 2 ++ "] needs 3-4 options")
    else match firstBlankIdx dd.options 0 with
    | some i => (false, "[DD" ++ did.drop 2 ++ "] option " ++ toString i ++ " is empty")
    | none =>
      if dd.correct < 0 ∨ (dd.options.length : Int) ≤ dd.correct then
        (false, "[DD" ++ did.drop 2 ++ "] has invalid correct answer")
      else checkDropdowns rest

/-- Modelled from the spec: `QuestionValidator.validate_dropdown`, absent
from `shared/validators.py` though called by `DropdownForm.validate`.
Spec 4.4: same algorithm as the fill-in-blank instance with pattern
`\[DD(\d+)\]` and prefix `DD`; no legacy mode (at least one placeholder is
always required); two-way reconciliation between text placeholders and the
`dropdowns` map; consecutive numbering `1..N`; per slot 3-4 non-empty
options and a correct index in range; 1-5 slots per question, a count
outside the cap being a validation error. -/
def validate_dropdown (question_text : String) (dropdowns : List (String × DDSpec)) : Bool × String :=
  if isBlank question_text then (false, "Question text is required")
  else if dropdowns.length = 0 then (false, "At least one dropdown is required")
  else if 5 < dropdowns.length then
    (false, "Maximum 5 dropdowns allowed, found " ++ toString dropdowns.length)
  else
    let pids := ddIds question_text
    if pids.length = 0 then (false, msgNoDropdownsFound)
    else
      let answerIds := dropdowns.map Prod.fst
      match pids.find? (fun pid => !(answerIds.contains pid)) with
      | some pid => (false, msgDDNoOptions pid)
      | none =>
        match answerIds.find? (fun aid => !(pids.contains aid)) with
        | some aid => (false, msgDDNoPlaceholder aid)
        | none =>
          let slotNumbers := sortNats (answerIds.map (fun s => digitsVal (s.drop 2).data))
          let expected := List.range' 1 dropdowns.length
          if slotNumbers ≠ expected then
            (false, "Dropdown numbering must be consecutive starting from 1")
          else checkDropdowns dropdowns

/-! ### Data model (`shared/models.py`)

A JSON question object is modelled as a record of optional fields
(`none` = key absent; JSON `null` is identified with absence, which is
exactly how `data.get(key)` treats it).  The polymorphic `correct` field
carries one of the JSON shapes the question variants use. -/

/-- JSON value shapes appearing under the `correct` key. -/
inductive JVal where
  | jint (n : Int)
  | jintList (l : List Int)
  | jstrList (l : List String)
  | jstrMapList (m : List (String × List String))
  | jstrMap (m : List (String × String))
deriving DecidableEq

/-- A raw matching pair dict (`pair.get('country')` etc. may be absent). -/
structure PairD where
  country : Option String
  capital : Option String
  id : Option String
deriving DecidableEq

/-- A raw reading-comprehension sub-question dict, stored untouched. -/
structure SubQD where
  id : Option String
  question : Option String
  options : Option (List String)
  correct : Option Int
deriving DecidableEq

/-- A raw question JSON object. -/
structure QDoc where
  id : Option Int
  type : Option String
  lessonId : Option String
  enabled : Option Bool
  questionImage : Option String
  questionImageScale : Option Int
  question : Option String
  options : Option (List String)
  correct : Option JVal
  optionImages : Option (List (String × String))
  optionImageScale : Option Int
  pairs : Option (List PairD)
  items : Option (List ItemD)
  passage : Option String
  passageId : Option String
  questions : Option (List SubQD)
  dropdowns : Option (List (String × DDSpec))
deriving DecidableEq

/-- The common envelope fields of the base `Question` dataclass
(`DEFAULT_IMAGE_SCALE = 50`). -/
structure Env where
  id : Int
  lessonId : Option String
  enabled : Bool
  questionImage : Option String
  questionImageScale : Int
deriving DecidableEq

/-- `FillInBlankQuestion.correct : Union[List[str], Dict[str, List[str]]]`. -/
abbrev FillCorrect := FillAnswers

/-- The in-memory question model: one variant per `from_dict` route, plus
the generic fallback for unrecognized type strings. -/
inductive Question where
  | mc (e : Env) (question : String) (options : List String) (correct : Int)
       (optionImages : Option (List (String × String))) (optionImageScale : Int)
  | mcm (e : Env) (question : String) (options : List String) (correct : List Int)
        (optionImages : Option (List (String × String))) (optionImageScale : Int)
  | tf (e : Env) (question : String) (correct : Int)
  | fib (e : Env) (question : String) (correct : FillCorrect)
  | matchq (e : Env) (question : String) (pairs : List PairD) (correct : List (String × String))
  | reord (e : Env) (question : String) (items : List ItemD)
  | reading (e : Env) (passage : String) (passageId : String) (questions : List SubQD)
  | generic (e : Env) (type : String)
deriving DecidableEq

/-- Envelope of any variant. -/
def Question.env : Question → Env
  | .mc e _ _ _ _ _ => e
  | .mcm e _ _ _ _ _ => e
  | .tf e _ _ => e
  | .fib e _ _ => e
  | .matchq e _ _ _ => e
  | .reord e _ _ => e
  | .reading e _ _ _ => e
  | .generic e _ => e

def Question.lessonId (q : Question) : Option String := q.env.lessonId

def Question.enabled (q : Question) : Bool := q.env.enabled

/-- The `type` string each variant carries (`__post_init__` forces it). -/
def Question.qtype : Question → String
  | .mc .. => "multiple_choice"
  | .mcm .. => "multiple_choice_multiple"
  | .tf .. => "true_false"
  | .fib .. => "fill_in_blank"
  | .matchq .. => "matching"
  | .reord .. => "reordering"
  | .reading .. => "reading_comprehension"
  | .generic _ t => t

/-- Shared envelope reads of every `from_dict` classmethod:
`data.get('id', 0)`, `data.get('lessonId')`, `data.get('enabled', True)`,
`data.get('questionImage')`, `data.get('questionImageScale', 50)`. -/
def Env.from_dict (d : QDoc) : Env :=
  { id := d.id.getD 0
    lessonId := d.lessonId
    enabled := d.enabled.getD true
    questionImage := d.questionImage
    questionImageScale := d.questionImageScale.getD 50 }

def JVal.asInt (v : Option JVal) (dflt : Int) : Int :=
  match v with
  | some (.jint n) => n
  | _ => dflt

def JVal.asIntList (v : Option JVal) : List Int :=
  match v with
  | some (.jintList l) => l
  | _ => []

def JVal.asStrMap (v : Option JVal) : List (String × String) :=
  match v with
  | some (.jstrMap m) => m
  | _ => []

/-- `data.get('correct', [])` for `FillInBlankQuestion`: the value may be
the legacy list or the multi-blank dict. -/
def JVal.asFill (v : Option JVal) : FillCorrect :=
  match v with
  | some (.jstrList l) => .single l
  | some (.jstrMapList m) => .multi m
  | _ => .single []

/-- `Question.from_dict`: route on `data.get('type', 'multiple_choice')`;
an unrecognized type builds the generic base `Question`. -/
def Question.from_dict (d : QDoc) : Question :=
  let qtype := d.type.getD "multiple_choice"
  if qtype = "multiple_choice" then
    .mc (Env.from_dict d) (d.question.getD "") (d.options.getD [])
        (JVal.asInt d.correct 0) d.optionImages (d.optionImageScale.getD 50)
  else if qtype = "multiple_choice_multiple" then
    .mcm (Env.from_dict d) (d.question.getD "") (d.options.getD [])
         (JVal.asIntList d.correct) d.optionImages (d.optionImageScale.getD 50)
  else if qtype = "true_false" then
    .tf (Env.from_dict d) (d.question.getD "") (JVal.asInt d.correct 0)
  else if qtype = "fill_in_blank" then
    .fib (Env.from_dict d) (d.question.getD "") (JVal.asFill d.correct)
  else if qtype = "matching" then
    .matchq (Env.from_dict d) (d.question.getD "") (d.pairs.getD []) (JVal.asStrMap d.correct)
  else if qtype = "reordering" then
    .reord (Env.from_dict d) (d.question.getD "") (d.items.getD [])
  else if qtype = "reading_comprehension" then
    .reading (Env.from_dict d) (d.passage.getD "") (d.passageId.getD "") (d.questions.getD [])
  else
    .generic (Env.from_dict d) qtype

/-- An all-absent question document, used to spell `to_dict` compactly. -/
def QDoc.empty : QDoc :=
  { id := none, type := none, lessonId := none, enabled := none,
    questionImage := none, questionImageScale := none, question := none,
    options := none, correct := none, optionImages := none,
    optionImageScale := none, pairs := none, items := none, passage := none,
    passageId := none, questions := none, dropdowns := none }

/-- `Question.to_dict`: `asdict(self)` with `None`-valued keys removed.
Each variant emits exactly its dataclass fields; optional fields that are
`None` are absent from the output (our `none`). -/
def Question.to_dict : Question → QDoc
  | .mc e question options correct optionImages optionImageScale =>
    { QDoc.empty with
      id := some e.id, type := some "multiple_choice", lessonId := e.lessonId,
      enabled := some e.enabled, questionImage := e.questionImage,
      questionImageScale := some e.questionImageScale,
      question := some question, options := some options,
      correct := some (.jint correct), optionImages := optionImages,
      optionImageScale := some optionImageScale }
  | .mcm e question options correct optionImages optionImageScale =>
    { QDoc.empty with
      id := some e.id, type := some "multiple_choice_multiple", lessonId := e.lessonId,
      enabled := some e.enabled, questionImage := e.questionImage,
      questionImageScale := some e.questionImageScale,
      question := some question, options := some options,
      correct := some (.jintList correct), optionImages := optionImages,
      optionImageScale := some optionImageScale }
  | .tf e question correct =>
    { QDoc.empty with
      id := some e.id, type := some "true_false", lessonId := e.lessonId,
      enabled := some e.enabled, questionImage := e.questionImage,
      questionImageScale := some e.questionImageScale,
      question := some question, correct := some (.jint correct) }
  | .fib e question correct =>
    { QDoc.empty with
      id := some e.id, type := some "fill_in_blank", lessonId := e.lessonId,
      enabled := some e.enabled, questionImage := e.questionImage,
      questionImageScale := some e.questionImageScale,
      question := some question,
      correct := some (match correct with
        | .single l => .jstrList l
        | .multi m => .jstrMapList m) }
  | .matchq e question pairs correct =>
    { QDoc.empty with
      id := some e.id, type := some "matching", lessonId := e.lessonId,
      enabled := some e.enabled, questionImage := e.questionImage,
      questionImageScale := some e.questionImageScale,
      question := some question, pairs := some pairs,
      correct := some (.jstrMap correct) }
  | .reord e question items =>
    { QDoc.empty with
      id := some e.id, type := some "reordering", lessonId := e.lessonId,
      enabled := some e.enabled, questionImage := e.questionImage,
      questionImageScale := some e.questionImageScale,
      question := some question, items := some items }
  | .reading e passage passageId questions =>
    { QDoc.empty with
      id := some e.id, type := some "reading_comprehension", lessonId := e.lessonId,
      enabled := some e.enabled, questionImage := e.questionImage,
      questionImageScale := some e.questionImageScale,
      passage := some passage, passageId := some passageId,
      questions := some questions }
  | .generic e t =>
    { QDoc.empty with
      id := some e.id, type := some t, lessonId := e.lessonId,
      enabled := some e.enabled, questionImage := e.questionImage,
      questionImageScale := some e.questionImageScale }

/-- A raw lesson JSON object. -/
structure LessonDoc where
  id : Option String
  name : Option String
  enabled : Option Bool
deriving DecidableEq

/-- The `Lesson` dataclass. -/
structure Lesson where
  id : String
  name : String
  enabled : Bool
deriving DecidableEq

/-- `Lesson.from_dict`. -/
def Lesson.from_dict (d : LessonDoc) : Lesson :=
  { id := d.id.getD "", name := d.name.getD "", enabled := d.enabled.getD true }

/-- `Lesson.to_dict` (`asdict`, every field present). -/
def Lesson.to_dict (l : Lesson) : LessonDoc :=
  { id := some l.id, name := some l.name, enabled := some l.enabled }

/-- The top-level JSON document `{lessons: [...], questions: [...]}`;
`none` models a missing key (backfilled by `load_subject`). -/
structure SubjectDoc where
  lessons : Option (List LessonDoc)
  questions : Option (List QDoc)
deriving DecidableEq

/-- The `Subject` dataclass. -/
structure Subject where
  name : String
  filename : String
  lessons : List Lesson
  questions : List Question
deriving DecidableEq

/-- `Subject.from_dict`. -/
def Subject.from_dict (name filename : String) (d : SubjectDoc) : Subject :=
  { name := name, filename := filename
    lessons := (d.lessons.getD []).map Lesson.from_dict
    questions := (d.questions.getD []).map Question.from_dict }

/-- `Subject.to_dict`: both arrays always present. -/
def Subject.to_dict (s : Subject) : SubjectDoc :=
  { lessons := some (s.lessons.map Lesson.to_dict)
    questions := some (s.questions.map Question.to_dict) }

/-! ### Migration and load/save (`shared/data_manager.py`) -/

/-- Lesson migration in `DataManager.load_subject`:
`if 'enabled' not in lesson: lesson['enabled'] = True`. -/
def migrateLesson (d : LessonDoc) : LessonDoc :=
  { d with enabled := some (d.enabled.getD true) }

/-- Question migration in `DataManager.load_subject`: inject
`enabled = True` if missing, and `lessonId = None` if missing (with JSON
`null` identified with an absent key, the latter leaves the model
unchanged). -/
def migrateQ (d : QDoc) : QDoc :=
  { d with enabled := some (d.enabled.getD true) }

/-- Whole-document migration of `DataManager.load_subject`: backfill the
`lessons`/`questions` arrays when absent, then migrate each element. -/
def migrateDoc (d : SubjectDoc) : SubjectDoc :=
  { lessons := some ((d.lessons.getD []).map migrateLesson)
    questions := some ((d.questions.getD []).map migrateQ) }

/-- `DataManager.load_subject` on a successfully parsed document:
migration followed by `Subject.from_dict` (the file/JSON error paths are
outside the model). -/
def loadSubject (name filename : String) (d : SubjectDoc) : Subject :=
  Subject.from_dict name filename (migrateDoc d)

/-- `DataManager.save_subject` emits `subject.to_dict()` as the document. -/
def saveSubject (s : Subject) : SubjectDoc := s.to_dict

/-! ### Subject operations and fill-in-blank accessors (`shared/models.py`) -/

/-- Set `lessonId = None` on a question, leaving every other field alone. -/
def Question.clearLessonId : Question → Question
  | .mc e question options correct oi os => .mc { e with lessonId := none } question options correct oi os
  | .mcm e question options correct oi os => .mcm { e with lessonId := none } question options correct oi os
  | .tf e question correct => .tf { e with lessonId := none } question correct
  | .fib e question correct => .fib { e with lessonId := none } question correct
  | .matchq e question pairs correct => .matchq { e with lessonId := none } question pairs correct
  | .reord e question items => .reord { e with lessonId := none } question items
  | .reading e passage passageId questions => .reading { e with lessonId := none } passage passageId questions
  | .generic e t => .generic { e with lessonId := none } t

/-- The per-question effect of `Subject.remove_lesson`'s loop:
`if q.lessonId == lesson_id: q.lessonId = None`. -/
def reassignQ (lesson_id : String) (q : Question) : Question :=
  if q.lessonId = some lesson_id then q.clearLessonId else q

/-- `Subject.remove_lesson`: drop the lessons with that id and move their
questions to Others. -/
def Subject.remove_lesson (s : Subject) (lesson_id : String) : Subject :=
  { s with lessons := s.lessons.filter (fun l => l.id ≠ lesson_id)
           questions := s.questions.map (reassignQ lesson_id) }

/-- Comparison of slot-ids by the numeric value of their suffix (the sort
key `int(x.replace('Q', ''))` of `get_blank_ids`). -/
def suffixLE (a b : String) : Prop := qSuffix a ≤ qSuffix b

instance : DecidableRel suffixLE :=
  fun a b => inferInstanceAs (Decidable (qSuffix a ≤ qSuffix b))

instance : IsTotal String suffixLE := ⟨fun a b => Nat.le_total (qSuffix a) (qSuffix b)⟩

instance : IsTrans String suffixLE := ⟨fun _ _ _ hab hbc => Nat.le_trans hab hbc⟩

/-- `FillInBlankQuestion.get_blank_ids`: for the dict format, the keys
sorted by numeric suffix (`key=lambda x: int(x.replace('Q', ''))`, a
stable sort); for the list format, `['Q1']`. -/
def get_blank_ids (correct : FillCorrect) : List String :=
  match correct with
  | .multi m => List.insertionSort suffixLE (m.map Prod.fst)
  | .single _ => ["Q1"]

/-! ### Helper lemmas -/

lemma firstBlankIdx_eq_none (l : List String) (k : Nat)
    (h : ∀ s ∈ l, isBlank s = false) : firstBlankIdx l k = none := by
  induction l generalizing k with
  | nil => rfl
  | cons s rest ih =>
    simp only [firstBlankIdx, h s (List.mem_cons_self s rest), Bool.false_eq_true, if_false]
    exact ih (k+1) (fun x hx => h x (List.mem_cons_of_mem _ hx))

lemma checkItems_ok (l : List ItemD) (i : Nat)
    (h : ∀ it ∈ l, optBlank it.text = false ∧ it.order ≠ none) :
    checkItems l i = (true, "") := by
  induction l generalizing i with
  | nil => rfl
  | cons it rest ih =>
    have h1 := h it (List.mem_cons_self it rest)
    simp only [checkItems, h1.1, Bool.false_eq_true, if_false, h1.2, if_neg]
    exact ih (i+1) (fun x hx => h x (List.mem_cons_of_mem _ hx))

lemma contains_true_of_mem {l : List String} {a : String} (h : a ∈ l) :
    l.contains a = true := List.elem_iff.mpr h

lemma mem_of_contains_true {l : List String} {a : String} (h : l.contains a = true) :
    a ∈ l := List.elem_iff.mp h

/-! ### Claim theorems -/

/-- Claim C6, counterexample: a reordering question whose two items carry
the identical text "alpha" passes `validate_reordering`, contradicting the
claim that duplicates yield `(false, ...)`. -/
theorem reordering_duplicate_accepted :
    validate_reordering "Sort these"
      [⟨some "alpha", some 0⟩, ⟨some "alpha", some 1⟩] = (true, "") := by decide

/-- Claim C6 (amended): `validate_reordering` does not check item texts
for uniqueness.  Whenever the question text is non-blank, there are at
least 2 items, and every item has a non-blank `text` and an `order` key,
validation succeeds — including when two items share the same text. -/
theorem validate_reordering_no_unique_check (text : String) (items : List ItemD)
    (htext : isBlank text = false) (hlen : 2 ≤ items.length)
    (hitems : ∀ it ∈ items, optBlank it.text = false ∧ it.order ≠ none) :
    validate_reordering text items = (true, "") := by
  have h2 : ¬ items.length < 2 := by omega
  simp only [validate_reordering, htext, Bool.false_eq_true, if_false, h2]
  exact checkItems_ok items 0 hitems

/-- Claim C6 witness: the amended theorem applied to the duplicate-text
input (both items read "beta"). -/
theorem validate_reordering_no_unique_check_witness :
    validate_reordering "Arrange"
      [⟨some "beta", some 0⟩, ⟨some "beta", some 1⟩] = (true, "") :=
  validate_reordering_no_unique_check "Arrange"
    [⟨some "beta", some 0⟩, ⟨some "beta", some 1⟩]
    (by decide) (by decide) (by decide)

/-- Claim C3, counterexample: the question text contains the placeholder
`_Q1_`, yet flat-list answers are accepted under the legacy rules —
`validate_fill_in_blank` dispatches on the answers' structure, not on the
text. -/
theorem fill_in_blank_placeholder_with_list_accepted :
    placeholderIds "_Q1_ foo" = ["Q1"] ∧
    validate_fill_in_blank "_Q1_ foo" (.single ["bar"]) = (true, "") := by decide

/-- Claim C3 (amended): the fill-in-blank validation mode is determined by
the structural form of the answers (`isinstance(answers, dict)`), not by
the placeholders in the text: a dict is validated in multi-slot mode and a
flat list in legacy single-slot mode; in particular, text containing
placeholders together with a valid flat list IS accepted under the legacy
rules. -/
theorem fill_in_blank_mode_structural (text : String)
    (m : List (String × List String)) (l : List String)
    (htext : isBlank text = false) :
    validate_fill_in_blank text (.multi m) = validate_multi_blank text m ∧
    validate_fill_in_blank text (.single l) = validate_single_blank l ∧
    (l ≠ [] → (∀ s ∈ l, isBlank s = false) →
      validate_fill_in_blank text (.single l) = (true, "")) := by
  refine ⟨?_, ?_, ?_⟩
  · simp only [validate_fill_in_blank, htext, Bool.false_eq_true, if_false]
  · simp only [validate_fill_in_blank, htext, Bool.false_eq_true, if_false]
  · intro hne hall
    have hlen : ¬ l.length < 1 := by
      have : l.length ≠ 0 := fun h => hne (List.length_eq_zero.mp h)
      omega
    simp only [validate_fill_in_blank, htext, Bool.false_eq_true, if_false,
      validate_single_blank, hlen, firstBlankIdx_eq_none l 0 hall]

/-- Claim C3 witness: the amended theorem at text `"_Q1_ foo"` (which
contains a placeholder) with flat-list answers `["bar"]`. -/
theorem fill_in_blank_mode_structural_witness :
    validate_fill_in_blank "_Q1_ foo" (.single ["bar"]) = (true, "") :=
  (fill_in_blank_mode_structural "_Q1_ foo" [("Q1", ["a"])] ["bar"]
    (by decide)).2.2 (by decide) (by decide)

lemma clearLessonId_lessonId (q : Question) : q.clearLessonId.lessonId = none := by
  cases q <;> rfl

lemma clearLessonId_idem (q : Question) : q.clearLessonId.clearLessonId = q.clearLessonId := by
  cases q <;> rfl

/-- Claim C7: `Subject.remove_lesson L` removes exactly the lessons whose
id is `L`, keeps the questions list at the same length and order (the i-th
result is the reassignment of the i-th input), sets `lessonId` to `None`
exactly on the questions whose `lessonId` equalled `L` (leaving the others'
`lessonId` alone), and changes nothing else about any question (the
`lessonId`-erasures agree) nor about the subject's name and filename. -/
theorem remove_lesson_frame (s : Subject) (L : String) :
    (s.remove_lesson L).lessons = s.lessons.filter (fun l => l.id ≠ L) ∧
    (∀ l : Lesson, l ∈ (s.remove_lesson L).lessons ↔ l ∈ s.lessons ∧ l.id ≠ L) ∧
    (s.remove_lesson L).questions.length = s.questions.length ∧
    (∀ i : Nat, (s.remove_lesson L).questions[i]? = (s.questions[i]?).map (reassignQ L)) ∧
    (∀ q : Question, (reassignQ L q).lessonId = if q.lessonId = some L then none else q.lessonId) ∧
    (∀ q : Question, (reassignQ L q).clearLessonId = q.clearLessonId) ∧
    (s.remove_lesson L).name = s.name ∧ (s.remove_lesson L).filename = s.filename := by
  refine ⟨rfl, ?_, ?_, ?_, ?_, ?_, rfl, rfl⟩
  · intro l
    show l ∈ s.lessons.filter (fun l => l.id ≠ L) ↔ _
    rw [List.mem_filter]
    simp
  · exact List.length_map s.questions (reassignQ L)
  · intro i
    exact List.getElem?_map (reassignQ L) s.questions i
  · intro q
    unfold reassignQ
    split
    · rw [clearLessonId_lessonId]
    · rfl
  · intro q
    unfold reassignQ
    split
    · exact clearLessonId_idem q
    · rfl

/-- Claim C10 helper: a concrete stored dropdown question document with a
text and a dropdowns payload. -/
def ddQuestionDoc : QDoc :=
  { QDoc.empty with
      id := some 7, type := some "dropdown",
      question := some "The capital is [DD1].",
      dropdowns := some [("DD1", ⟨["Rome", "Paris", "Berlin"], 0⟩)] }

/-- Claim C10: `Question.from_dict` has no `'dropdown'` branch, so a
stored dropdown question is routed to the generic base fallback which
keeps only the envelope fields; the document written back by the next save
consists of the envelope alone — in particular its `question` text and its
`dropdowns` payload are gone. -/
theorem dropdown_payload_dropped (d : QDoc) (h : d.type = some "dropdown") :
    Question.from_dict d = .generic (Env.from_dict d) "dropdown" ∧
    (Question.to_dict (Question.from_dict d)).question = none ∧
    (Question.to_dict (Question.from_dict d)).dropdowns = none ∧
    Question.to_dict (Question.from_dict d) =
      { QDoc.empty with
          id := some (d.id.getD 0), type := some "dropdown",
          lessonId := d.lessonId, enabled := some (d.enabled.getD true),
          questionImage := d.questionImage,
          questionImageScale := some (d.questionImageScale.getD 50) } := by
  have hq : Question.from_dict d = .generic (Env.from_dict d) "dropdown" := by
    unfold Question.from_dict
    rw [h]
    rfl
  refine ⟨hq, ?_, ?_, ?_⟩ <;> rw [hq] <;> rfl

/-- Claim C10 witness: the theorem applied to `ddQuestionDoc`, whose
`question` text and `dropdowns` payload are present before the load-save
cycle and absent after it. -/
theorem dropdown_payload_dropped_witness :
    Question.from_dict ddQuestionDoc = .generic (Env.from_dict ddQuestionDoc) "dropdown" ∧
    (Question.to_dict (Question.from_dict ddQuestionDoc)).question = none ∧
    (Question.to_dict (Question.from_dict ddQuestionDoc)).dropdowns = none ∧
    Question.to_dict (Question.from_dict ddQuestionDoc) =
      { QDoc.empty with
          id := some (ddQuestionDoc.id.getD 0), type := some "dropdown",
          lessonId := ddQuestionDoc.lessonId,
          enabled := some (ddQuestionDoc.enabled.getD true),
          questionImage := ddQuestionDoc.questionImage,
          questionImageScale := some (ddQuestionDoc.questionImageScale.getD 50) } :=
  dropdown_payload_dropped ddQuestionDoc rfl

lemma from_dict_enabled (d : QDoc) : (Question.from_dict d).enabled = d.enabled.getD true := by
  unfold Question.from_dict
  dsimp only
  split_ifs <;> rfl

lemma from_dict_lessonId (d : QDoc) : (Question.from_dict d).lessonId = d.lessonId := by
  unfold Question.from_dict
  dsimp only
  split_ifs <;> rfl

lemma migrateQ_idem (d : QDoc) : migrateQ (migrateQ d) = migrateQ d := rfl

lemma migrateLesson_idem (d : LessonDoc) : migrateLesson (migrateLesson d) = migrateLesson d := rfl

/-- Claim C8: loading backfills defaults — a question object without an
`enabled` key loads with `enabled = true`, and one without a `lessonId`
key loads with `lessonId = none`; migration is idempotent at the question,
lesson and document level; and the load path never fails on migration: it
is always exactly migration followed by model construction. -/
theorem migration_backfills_defaults (d : QDoc) (ld : LessonDoc) (sd : SubjectDoc)
    (name fn : String) :
    (d.enabled = none → (Question.from_dict (migrateQ d)).enabled = true) ∧
    (d.lessonId = none → (Question.from_dict (migrateQ d)).lessonId = none) ∧
    (ld.enabled = none → (Lesson.from_dict (migrateLesson ld)).enabled = true) ∧
    migrateQ (migrateQ d) = migrateQ d ∧
    migrateLesson (migrateLesson ld) = migrateLesson ld ∧
    migrateDoc (migrateDoc sd) = migrateDoc sd ∧
    loadSubject name fn sd = Subject.from_dict name fn (migrateDoc sd) := by
  refine ⟨?_, ?_, ?_, rfl, rfl, ?_, rfl⟩
  · intro h
    rw [from_dict_enabled]
    simp [migrateQ, h]
  · intro h
    rw [from_dict_lessonId]
    simp [migrateQ, h]
  · intro h
    simp [Lesson.from_dict, migrateLesson, h]
  · simp only [migrateDoc, Option.getD_some, List.map_map]
    refine congrArg₂ SubjectDoc.mk ?_ ?_ <;>
      exact congrArg some (List.map_congr_left (fun a _ => rfl))

/-- Claim C8 witness: a legacy question document lacking both the
`enabled` and the `lessonId` keys loads with `enabled = true` and
`lessonId = none`, and a legacy lesson document lacking `enabled` loads
enabled. -/
theorem migration_backfills_defaults_witness :
    (Question.from_dict (migrateQ { QDoc.empty with id := some 3, type := some "true_false" })).enabled = true ∧
    (Question.from_dict (migrateQ { QDoc.empty with id := some 3, type := some "true_false" })).lessonId = none ∧
    (Lesson.from_dict (migrateLesson ⟨some "L001", some "Capitals", none⟩)).enabled = true :=
  ⟨(migration_backfills_defaults { QDoc.empty with id := some 3, type := some "true_false" }
      ⟨some "L001", some "Capitals", none⟩ ⟨none, none⟩ "geo" "questions-geo.json").1 rfl,
   (migration_backfills_defaults { QDoc.empty with id := some 3, type := some "true_false" }
      ⟨some "L001", some "Capitals", none⟩ ⟨none, none⟩ "geo" "questions-geo.json").2.1 rfl,
   (migration_backfills_defaults { QDoc.empty with id := some 3, type := some "true_false" }
      ⟨some "L001", some "Capitals", none⟩ ⟨none, none⟩ "geo" "questions-geo.json").2.2.1 rfl⟩

lemma round_generic (e : Env) (t : String)
    (h1 : t ≠ "multiple_choice") (h2 : t ≠ "multiple_choice_multiple")
    (h3 : t ≠ "true_false") (h4 : t ≠ "fill_in_blank") (h5 : t ≠ "matching")
    (h6 : t ≠ "reordering") (h7 : t ≠ "reading_comprehension") :
    Question.from_dict (Question.to_dict (.generic e t)) = .generic e t := by
  unfold Question.to_dict Question.from_dict
  dsimp only
  rw [Option.getD_some, if_neg h1, if_neg h2, if_neg h3, if_neg h4, if_neg h5,
    if_neg h6, if_neg h7]
  rfl

/-- One load-save-load cycle is stable per question: re-reading the
document written for a loaded question reproduces that question. -/
lemma question_round_trip (d : QDoc) :
    Question.from_dict (Question.to_dict (Question.from_dict d)) = Question.from_dict d := by
  by_cases h1 : d.type.getD "multiple_choice" = "multiple_choice"
  · have hd : Question.from_dict d = .mc (Env.from_dict d) (d.question.getD "")
        (d.options.getD []) (JVal.asInt d.correct 0) d.optionImages
        (d.optionImageScale.getD 50) := by
      unfold Question.from_dict; dsimp only; rw [if_pos h1]
    rw [hd]; rfl
  by_cases h2 : d.type.getD "multiple_choice" = "multiple_choice_multiple"
  · have hd : Question.from_dict d = .mcm (Env.from_dict d) (d.question.getD "")
        (d.options.getD []) (JVal.asIntList d.correct) d.optionImages
        (d.optionImageScale.getD 50) := by
      unfold Question.from_dict; dsimp only; rw [if_neg h1, if_pos h2]
    rw [hd]; rfl
  by_cases h3 : d.type.getD "multiple_choice" = "true_false"
  · have hd : Question.from_dict d = .tf (Env.from_dict d) (d.question.getD "")
        (JVal.asInt d.correct 0) := by
      unfold Question.from_dict; dsimp only; rw [if_neg h1, if_neg h2, if_pos h3]
    rw [hd]; rfl
  by_cases h4 : d.type.getD "multiple_choice" = "fill_in_blank"
  · have hd : Question.from_dict d = .fib (Env.from_dict d) (d.question.getD "")
        (JVal.asFill d.correct) := by
      unfold Question.from_dict; dsimp only; rw [if_neg h1, if_neg h2, if_neg h3, if_pos h4]
    rw [hd]
    cases hfc : JVal.asFill d.correct with
    | single l => rfl
    | multi m => rfl
  by_cases h5 : d.type.getD "multiple_choice" = "matching"
  · have hd : Question.from_dict d = .matchq (Env.from_dict d) (d.question.getD "")
        (d.pairs.getD []) (JVal.asStrMap d.correct) := by
      unfold Question.from_dict; dsimp only
      rw [if_neg h1, if_neg h2, if_neg h3, if_neg h4, if_pos h5]
    rw [hd]; rfl
  by_cases h6 : d.type.getD "multiple_choice" = "reordering"
  · have hd : Question.from_dict d = .reord (Env.from_dict d) (d.question.getD "")
        (d.items.getD []) := by
      unfold Question.from_dict; dsimp only
      rw [if_neg h1, if_neg h2, if_neg h3, if_neg h4, if_neg h5, if_pos h6]
    rw [hd]; rfl
  by_cases h7 : d.type.getD "multiple_choice" = "reading_comprehension"
  · have hd : Question.from_dict d = .reading (Env.from_dict d) (d.passage.getD "")
        (d.passageId.getD "") (d.questions.getD []) := by
      unfold Question.from_dict; dsimp only
      rw [if_neg h1, if_neg h2, if_neg h3, if_neg h4, if_neg h5, if_neg h6, if_pos h7]
    rw [hd]; rfl
  · have hd : Question.from_dict d = .generic (Env.from_dict d)
        (d.type.getD "multiple_choice") := by
      unfold Question.from_dict; dsimp only
      rw [if_neg h1, if_neg h2, if_neg h3, if_neg h4, if_neg h5, if_neg h6, if_neg h7]
    rw [hd]
    exact round_generic _ _ h1 h2 h3 h4 h5 h6 h7

lemma migrateQ_to_dict (q : Question) : migrateQ (Question.to_dict q) = Question.to_dict q := by
  cases q <;> rfl

lemma lesson_round_trip (l : Lesson) :
    Lesson.from_dict (migrateLesson (Lesson.to_dict l)) = l := rfl

/-- Claim C5: serializing the Subject obtained from one load and loading
the emitted document again (same subject name and filename) yields an
equal Subject — `load(save(D')) = D'` on the normalized in-memory model,
even though `None`-valued optional fields are omitted on write and
restored as defaults on read. -/
theorem load_save_round_trip (name fn : String) (d : SubjectDoc) :
    loadSubject name fn (saveSubject (loadSubject name fn d)) = loadSubject name fn d := by
  unfold loadSubject saveSubject Subject.to_dict Subject.from_dict migrateDoc
  dsimp only
  simp only [Option.getD_some, List.map_map]
  refine congrArg₂ (Subject.mk name fn) ?_ ?_
  · exact List.map_congr_left (fun a _ => lesson_round_trip (Lesson.from_dict (migrateLesson a)))
  · refine List.map_congr_left (fun a _ => ?_)
    show Question.from_dict (migrateQ (Question.to_dict (Question.from_dict (migrateQ a)))) =
      Question.from_dict (migrateQ a)
    rw [migrateQ_to_dict]
    exact question_round_trip (migrateQ a)

lemma dedup_length_ne_of_not_nodup {l : List Int} (h : ¬ l.Nodup) :
    l.dedup.length ≠ l.length := by
  intro heq
  refine h ?_
  have hs := List.dedup_sublist l
  have heq2 := hs.eq_of_length heq
  rw [← heq2]
  exact List.nodup_dedup l

lemma nodup_length_le_of_range (l : List Int) (n : Nat) (hnd : l.Nodup)
    (h : ∀ i ∈ l, 0 ≤ i ∧ i < (n : Int)) : l.length ≤ n := by
  classical
  have hsub : l.toFinset ⊆ Finset.Icc (0 : Int) ((n : Int) - 1) := by
    intro x hx
    rw [List.mem_toFinset] at hx
    obtain ⟨h0, h1⟩ := h x hx
    rw [Finset.mem_Icc]
    omega
  have hcard := Finset.card_le_card hsub
  rw [Int.card_Icc, List.toFinset_card_of_nodup hnd] at hcard
  omega

/-- Claim C9: for a multiple-answer choice question with non-blank text
and at least 2 non-blank options, the correct-index list is rejected when
it contains a duplicate, rejected when any index is out of `[0, len-1]`,
rejected when empty, and accepted exactly when it is non-empty,
duplicate-free and in range. -/
theorem mcm_correct_indices_rules (text : String) (options : List String)
    (idxs : List Int) (htext : isBlank text = false) (hopts : 2 ≤ options.length)
    (hone : ∀ o ∈ options, isBlank o = false) :
    (¬ idxs.Nodup → (validate_multiple_choice_multiple text options idxs).1 = false) ∧
    ((∃ i ∈ idxs, i < 0 ∨ (options.length : Int) ≤ i) →
      (validate_multiple_choice_multiple text options idxs).1 = false) ∧
    (idxs = [] → validate_multiple_choice_multiple text options idxs =
      (false, "Need at least 1 correct answer")) ∧
    (idxs ≠ [] → idxs.Nodup → (∀ i ∈ idxs, 0 ≤ i ∧ i < (options.length : Int)) →
      validate_multiple_choice_multiple text options idxs = (true, "")) := by
  have hlt : ¬ options.length < 2 := by omega
  have hfb := firstBlankIdx_eq_none options 0 hone
  simp only [validate_multiple_choice_multiple, htext, Bool.false_eq_true, if_false,
    hlt, hfb]
  refine ⟨?_, ?_, ?_, ?_⟩
  · intro hnd
    have hl1 : ¬ idxs.length < 1 := by
      intro hc
      have : idxs = [] := List.length_eq_zero.mp (by omega)
      exact hnd (this ▸ List.nodup_nil)
    by_cases hl2 : options.length < idxs.length
    · simp [hl1, hl2]
    · simp [hl1, hl2, dedup_length_ne_of_not_nodup hnd]
  · rintro ⟨i, hi, hbad⟩
    have hl1 : ¬ idxs.length < 1 := by
      have := List.length_pos.mpr (List.ne_nil_of_mem hi)
      omega
    by_cases hl2 : options.length < idxs.length
    · simp [hl1, hl2]
    · by_cases hdup : idxs.dedup.length ≠ idxs.length
      · simp [hl1, hl2, hdup]
      · cases hf : idxs.find? (fun idx => decide (idx < 0 ∨ (options.length : Int) ≤ idx)) with
        | none =>
          exfalso
          have := List.find?_eq_none.mp hf i hi
          simp only [decide_eq_true_eq] at this
          exact this hbad
        | some j => simp [hl1, hl2, hdup, hf]
  · intro h
    subst h
    simp
  · intro hne2 hnd hall
    have hl1 : ¬ idxs.length < 1 := by
      have := List.length_pos.mpr hne2
      omega
    have hl2 : ¬ options.length < idxs.length :=
      Nat.not_lt.mpr (nodup_length_le_of_range idxs options.length hnd hall)
    have hd2 : ¬ (idxs.dedup.length ≠ idxs.length) := by
      rw [hnd.dedup]
      exact fun hc => hc rfl
    have hfind : idxs.find?
        (fun idx => decide (idx < 0 ∨ (options.length : Int) ≤ idx)) = none := by
      refine List.find?_eq_none.mpr (fun x hx => ?_)
      obtain ⟨h0, h1⟩ := hall x hx
      simp only [decide_eq_true_eq, not_or]
      omega
    simp only [hl1, hl2, hd2, if_false]
    rw [hfind]

/-- Claim C9 witness: with text `"Pick"` and options `["a","b","c"]`,
the duplicate list `[0,0,1]` and the out-of-range list `[0,5]` are
rejected, the empty list draws the "need at least 1" error, and `[0,2]`
is accepted. -/
theorem mcm_correct_indices_rules_witness :
    (validate_multiple_choice_multiple "Pick" ["a", "b", "c"] [0, 0, 1]).1 = false ∧
    (validate_multiple_choice_multiple "Pick" ["a", "b", "c"] [0, 5]).1 = false ∧
    validate_multiple_choice_multiple "Pick" ["a", "b", "c"] [] =
      (false, "Need at least 1 correct answer") ∧
    validate_multiple_choice_multiple "Pick" ["a", "b", "c"] [0, 2] = (true, "") :=
  ⟨(mcm_correct_indices_rules "Pick" ["a", "b", "c"] [0, 0, 1]
      (by decide) (by decide) (by decide)).1 (by decide),
   (mcm_correct_indices_rules "Pick" ["a", "b", "c"] [0, 5]
      (by decide) (by decide) (by decide)).2.1 ⟨5, by decide, by decide⟩,
   (mcm_correct_indices_rules "Pick" ["a", "b", "c"] []
      (by decide) (by decide) (by decide)).2.2.1 rfl,
   (mcm_correct_indices_rules "Pick" ["a", "b", "c"] [0, 2]
      (by decide) (by decide) (by decide)).2.2.2 (by decide) (by decide) (by decide)⟩

/-- Branch lemma: once the emptiness, size-cap and no-placeholder guards
have passed, `validate_multi_blank` is the reconciliation-numbering-content
pipeline. -/
lemma validate_multi_blank_step (text : String) (answers : List (String × List String))
    (h0 : answers ≠ []) (h10 : answers.length ≤ 10)
    (hp : (placeholderIds text).length ≠ 0) :
    validate_multi_blank text answers =
      (match (placeholderIds text).find? (fun pid => !((answers.map Prod.fst).contains pid)) with
       | some pid => (false, msgBlankNoAnswers pid)
       | none =>
         match (answers.map Prod.fst).find? (fun aid => !((placeholderIds text).contains aid)) with
         | some aid => (false, msgAnswersNoBlank aid)
         | none =>
           if sortNats ((answers.map Prod.fst).map qSuffix) ≠ List.range' 1 answers.length then
             (false, msgConsecutive (List.range' 1 answers.length)
               (sortNats ((answers.map Prod.fst).map qSuffix)))
           else checkBlankAnswers answers) := by
  unfold validate_multi_blank
  dsimp only
  rw [if_neg (fun hc => h0 (List.length_eq_zero.mp hc)), if_neg (by omega), if_neg hp]

lemma mem_of_find_none {l keys : List String} {a : String}
    (hf : l.find? (fun x => !(keys.contains x)) = none) (ha : a ∈ l) : a ∈ keys := by
  have hn := List.find?_eq_none.mp hf a ha
  cases hcb : keys.contains a with
  | true => exact mem_of_contains_true hcb
  | false => exact absurd (by simpa using hcb) hn

lemma find_none_of_all_mem {l keys : List String}
    (h : ∀ x ∈ l, x ∈ keys) : l.find? (fun x => !(keys.contains x)) = none := by
  refine List.find?_eq_none.mpr (fun x hx => ?_)
  simpa using h x hx

/-- Claim C1: multi-blank validation succeeds only if the set of slot-ids
extracted from the text by `_Q(\d+)_` equals the set of keys of the answer
map; a slot-id in the text with no map entry makes validation return
`(false, message naming such a slot)`, and — once every text slot is
covered — a map key with no placeholder in the text makes it return
`(false, message naming such a key)`: a two-way check, not a subset check. -/
theorem multi_blank_two_way_reconciliation (text : String)
    (answers : List (String × List String)) :
    ((validate_multi_blank text answers).1 = true →
      ∀ s : String, s ∈ placeholderIds text ↔ s ∈ answers.map Prod.fst) ∧
    (answers ≠ [] → answers.length ≤ 10 →
      ∀ pid ∈ placeholderIds text, pid ∉ answers.map Prod.fst →
        (validate_multi_blank text answers).1 = false ∧
        ∃ p ∈ placeholderIds text, p ∉ answers.map Prod.fst ∧
          (validate_multi_blank text answers).2 = msgBlankNoAnswers p) ∧
    (answers ≠ [] → answers.length ≤ 10 → placeholderIds text ≠ [] →
      (∀ p ∈ placeholderIds text, p ∈ answers.map Prod.fst) →
      ∀ aid ∈ answers.map Prod.fst, aid ∉ placeholderIds text →
        (validate_multi_blank text answers).1 = false ∧
        ∃ a ∈ answers.map Prod.fst, a ∉ placeholderIds text ∧
          (validate_multi_blank text answers).2 = msgAnswersNoBlank a) := by
  refine ⟨?_, ?_, ?_⟩
  · intro h s
    by_cases h0 : answers.length = 0
    · exfalso
      unfold validate_multi_blank at h
      rw [if_pos h0] at h
      exact Bool.false_ne_true h
    by_cases h10 : 10 < answers.length
    · exfalso
      unfold validate_multi_blank at h
      rw [if_neg h0, if_pos h10] at h
      exact Bool.false_ne_true h
    by_cases hp : (placeholderIds text).length = 0
    · exfalso
      unfold validate_multi_blank at h
      dsimp only at h
      rw [if_neg h0, if_neg h10, if_pos hp] at h
      exact Bool.false_ne_true h
    rw [validate_multi_blank_step text answers
      (fun hc => h0 (hc ▸ rfl)) (by omega) hp] at h
    cases hf1 : (placeholderIds text).find?
        (fun pid => !((answers.map Prod.fst).contains pid)) with
    | some q => rw [hf1] at h; exact absurd h Bool.false_ne_true
    | none =>
      cases hf2 : (answers.map Prod.fst).find?
          (fun aid => !((placeholderIds text).contains aid)) with
      | some q => rw [hf1, hf2] at h; exact absurd h Bool.false_ne_true
      | none =>
        exact ⟨fun hs => mem_of_find_none hf1 hs, fun hs => mem_of_find_none hf2 hs⟩
  · intro hne h10 pid hpid hnotin
    have hp : (placeholderIds text).length ≠ 0 :=
      fun hc => (List.ne_nil_of_mem hpid) (List.length_eq_zero.mp hc)
    rw [validate_multi_blank_step text answers hne h10 hp]
    cases hf1 : (placeholderIds text).find?
        (fun pid => !((answers.map Prod.fst).contains pid)) with
    | none => exact absurd (mem_of_find_none hf1 hpid) hnotin
    | some q =>
      refine ⟨rfl, q, List.mem_of_find?_eq_some hf1, ?_, rfl⟩
      have := List.find?_some hf1
      simpa using this
  · intro hne h10 hpne hall aid haid hnotin
    have hp : (placeholderIds text).length ≠ 0 :=
      fun hc => hpne (List.length_eq_zero.mp hc)
    rw [validate_multi_blank_step text answers hne h10 hp]
    rw [find_none_of_all_mem hall]
    cases hf2 : (answers.map Prod.fst).find?
        (fun aid => !((placeholderIds text).contains aid)) with
    | none => exact absurd (mem_of_find_none hf2 haid) hnotin
    | some q =>
      refine ⟨rfl, q, List.mem_of_find?_eq_some hf2, ?_, rfl⟩
      have := List.find?_some hf2
      simpa using this

/-- Claim C1 witness: with text `"_Q1_ and _Q2_"` and keys `{Q1}` the slot
`Q2` has no map entry and validation fails naming a missing slot; with text
`"_Q1_ only"` and keys `{Q1, Q2}` the key `Q2` has no placeholder and
validation fails naming a superfluous key; with text `"_Q1_"` and keys
`{Q1}` validation succeeds, so the two slot-id sets coincide. -/
theorem multi_blank_two_way_reconciliation_witness :
    ((validate_multi_blank "_Q1_ and _Q2_" [("Q1", ["a"])]).1 = false ∧
      ∃ p ∈ placeholderIds "_Q1_ and _Q2_", p ∉ [("Q1", ["a"])].map Prod.fst ∧
        (validate_multi_blank "_Q1_ and _Q2_" [("Q1", ["a"])]).2 = msgBlankNoAnswers p) ∧
    ((validate_multi_blank "_Q1_ only" [("Q1", ["a"]), ("Q2", ["b"])]).1 = false ∧
      ∃ a ∈ [("Q1", ["a"]), ("Q2", ["b"])].map Prod.fst, a ∉ placeholderIds "_Q1_ only" ∧
        (validate_multi_blank "_Q1_ only" [("Q1", ["a"]), ("Q2", ["b"])]).2 = msgAnswersNoBlank a) ∧
    (∀ s : String, s ∈ placeholderIds "_Q1_" ↔ s ∈ [("Q1", ["a"])].map Prod.fst) :=
  ⟨(multi_blank_two_way_reconciliation "_Q1_ and _Q2_" [("Q1", ["a"])]).2.1
      (by decide) (by decide) "Q2" (by decide) (by decide),
   (multi_blank_two_way_reconciliation "_Q1_ only" [("Q1", ["a"]), ("Q2", ["b"])]).2.2
      (by decide) (by decide) (by decide) (by decide) "Q2" (by decide) (by decide),
   (multi_blank_two_way_reconciliation "_Q1_" [("Q1", ["a"])]).1 (by decide)⟩

/-- Claim C2: once the two-way reconciliation passes, validation requires
the numeric suffixes of the map's keys, sorted, to be exactly `1..N` (a
gap draws the consecutiveness error, regardless of the placeholder order
in the text — the check reads only the keys); and `get_blank_ids` orders
slot-ids by the numeric value of the suffix (`Q2` before `Q10`), returning
a permutation of the keys sorted by `suffixLE`. -/
theorem multi_blank_consecutive_numbering (text : String)
    (answers : List (String × List String)) :
    ((validate_multi_blank text answers).1 = true →
      sortNats ((answers.map Prod.fst).map qSuffix) = List.range' 1 answers.length) ∧
    (answers ≠ [] → answers.length ≤ 10 → placeholderIds text ≠ [] →
      (∀ p ∈ placeholderIds text, p ∈ answers.map Prod.fst) →
      (∀ a ∈ answers.map Prod.fst, a ∈ placeholderIds text) →
      sortNats ((answers.map Prod.fst).map qSuffix) ≠ List.range' 1 answers.length →
      validate_multi_blank text answers =
        (false, msgConsecutive (List.range' 1 answers.length)
          (sortNats ((answers.map Prod.fst).map qSuffix)))) ∧
    (List.Sorted suffixLE (get_blank_ids (.multi answers)) ∧
      (get_blank_ids (.multi answers)).Perm (answers.map Prod.fst)) ∧
    get_blank_ids (.multi [("Q10", ["x"]), ("Q2", ["y"])]) = ["Q2", "Q10"] := by
  refine ⟨?_, ?_, ⟨?_, ?_⟩, ?_⟩
  · intro h
    by_cases h0 : answers.length = 0
    · exfalso
      unfold validate_multi_blank at h
      rw [if_pos h0] at h
      exact Bool.false_ne_true h
    by_cases h10 : 10 < answers.length
    · exfalso
      unfold validate_multi_blank at h
      rw [if_neg h0, if_pos h10] at h
      exact Bool.false_ne_true h
    by_cases hp : (placeholderIds text).length = 0
    · exfalso
      unfold validate_multi_blank at h
      dsimp only at h
      rw [if_neg h0, if_neg h10, if_pos hp] at h
      exact Bool.false_ne_true h
    rw [validate_multi_blank_step text answers
      (fun hc => h0 (hc ▸ rfl)) (by omega) hp] at h
    cases hf1 : (placeholderIds text).find?
        (fun pid => !((answers.map Prod.fst).contains pid)) with
    | some q => rw [hf1] at h; exact absurd h Bool.false_ne_true
    | none =>
      cases hf2 : (answers.map Prod.fst).find?
          (fun aid => !((placeholderIds text).contains aid)) with
      | some q => rw [hf1, hf2] at h; exact absurd h Bool.false_ne_true
      | none =>
        rw [hf1, hf2] at h
        by_cases hs : sortNats ((answers.map Prod.fst).map qSuffix) =
            List.range' 1 answers.length
        · exact hs
        · exfalso
          rw [if_pos hs] at h
          exact Bool.false_ne_true h
  · intro hne h10 hpne hall1 hall2 hs
    have hp : (placeholderIds text).length ≠ 0 :=
      fun hc => hpne (List.length_eq_zero.mp hc)
    rw [validate_multi_blank_step text answers hne h10 hp,
      find_none_of_all_mem hall1, find_none_of_all_mem hall2, if_pos hs]
  · exact List.sorted_insertionSort suffixLE (answers.map Prod.fst)
  · exact List.perm_insertionSort suffixLE (answers.map Prod.fst)
  · decide

/-- Claim C2 witness: keys `{Q1, Q2}` with matching text pass validation,
so their sorted suffixes are `[1, 2]`; keys `{Q1, Q3}` (gap at 2) with
text `"_Q1_ _Q3_"` pass reconciliation but draw the consecutiveness
error. -/
theorem multi_blank_consecutive_numbering_witness :
    sortNats (([("Q1", ["a"]), ("Q2", ["b"])].map Prod.fst).map qSuffix) =
      List.range' 1 [("Q1", ["a"]), ("Q2", ["b"])].length ∧
    validate_multi_blank "_Q1_ _Q3_" [("Q1", ["a"]), ("Q3", ["b"])] =
      (false, msgConsecutive (List.range' 1 [("Q1", ["a"]), ("Q3", ["b"])].length)
        (sortNats (([("Q1", ["a"]), ("Q3", ["b"])].map Prod.fst).map qSuffix))) :=
  ⟨(multi_blank_consecutive_numbering "_Q1_ and _Q2_" [("Q1", ["a"]), ("Q2", ["b"])]).1
      (by decide),
   (multi_blank_consecutive_numbering "_Q1_ _Q3_" [("Q1", ["a"]), ("Q3", ["b"])]).2.1
      (by decide) (by decide) (by decide) (by decide) (by decide) (by decide)⟩

/-- Claim C4: dropdown validation as a core pure function: the text
`"The capital is [DD1]."` with the map `{DD1: {options: [Rome, Paris,
Berlin], correct: 0}}` validates `(true, "")`; removing `[DD1]` from the
text while keeping the map makes it fail with the placeholder-not-found
error; and a slot count outside 1-5 dropdowns is a validation error for
every question, never a silent truncation. -/
theorem dropdown_validation_spec :
    validate_dropdown "The capital is [DD1]."
      [("DD1", ⟨["Rome", "Paris", "Berlin"], 0⟩)] = (true, "") ∧
    validate_dropdown "The capital is ."
      [("DD1", ⟨["Rome", "Paris", "Berlin"], 0⟩)] = (false, msgNoDropdownsFound) ∧
    (∀ (text : String) (dds : List (String × DDSpec)),
      dds.length = 0 ∨ 5 < dds.length → (validate_dropdown text dds).1 = false) := by
  refine ⟨by decide, by decide, ?_⟩
  intro text dds h
  unfold validate_dropdown
  dsimp only
  by_cases ht : isBlank text = true
  · rw [if_pos ht]
  · rw [if_neg ht]
    rcases h with h0 | h5
    · rw [if_pos h0]
    · rw [if_neg (by omega), if_pos h5]

/-- Claim C4 witness: the out-of-cap conjunct applied to an empty
dropdowns map and to a six-slot map. -/
theorem dropdown_validation_spec_witness :
    (validate_dropdown "x" []).1 = false ∧
    (validate_dropdown "x [DD1]"
      [("DD1", ⟨["a", "b", "c"], 0⟩), ("DD2", ⟨["a", "b", "c"], 0⟩),
       ("DD3", ⟨["a", "b", "c"], 0⟩), ("DD4", ⟨["a", "b", "c"], 0⟩),
       ("DD5", ⟨["a", "b", "c"], 0⟩), ("DD6", ⟨["a", "b", "c"], 0⟩)]).1 = false :=
  ⟨dropdown_validation_spec.2.2 "x" [] (Or.inl rfl),
   dropdown_validation_spec.2.2 "x [DD1]"
      [("DD1", ⟨["a", "b", "c"], 0⟩), ("DD2", ⟨["a", "b", "c"], 0⟩),
       ("DD3", ⟨["a", "b", "c"], 0⟩), ("DD4", ⟨["a", "b", "c"], 0⟩),
       ("DD5", ⟨["a", "b", "c"], 0⟩), ("DD6", ⟨["a", "b", "c"], 0⟩)]
      (Or.inr (by decide))⟩
